import Mathlib

/-!
Verification of the distraction-detection-and-intervention engine of the
goose-ai-buddy repository, as a shallow embedding in Lean 4.

The embedding covers:
* `python-service/distraction_tracker.py` — `DistractionTracker`
  (`log_distraction`, `should_intervene`, `start_intervention`,
  `_get_recent_distractions`, `get_status`);
* `python-service/session_manager.py` — `SessionManager` and its
  transitions;
* `python-service/content_analyzer.py` — `ContentAnalyzer`
  (`analyze_content`, `_extract_domain`, `_check_domain_patterns`,
  `_combine_text_content`, `_analyze_keywords`,
  `_analyze_youtube_specific`, `_analyze_context`,
  `_make_final_decision`);
* `python-service/simple_main.py` — the `/analyze-distraction` handler
  `analyze_distraction`.

Modelling conventions: the tracker's wall-clock instants (`time.time()`
values) are integers — the engine only compares seconds-since-epoch
against a window bound, so integer seconds carry every property stated
here without dragging in float semantics; the session manager's instants
and the classifier's confidences are rationals; Python exceptions
are `Except String`; mutation of `self` is explicit state passing (a
Python method that both mutates and raises returns the mutated state
alongside the `Except` result, matching the fact that mutations survive
a raised exception); the external Goose agent is an opaque function
parameter; Python dynamic values in content snapshots are a `Val` type
so that the genuinely possible runtime type errors (the ones that the
`try/except` in `analyze_content` exists to catch) are representable.
-/

/-- The apostrophe character, used to build the Python string literals of the
source that contain contractions. -/
def apos : Char := Char.ofNat 39

/-- One-character string holding an apostrophe. -/
def apos_s : String := String.mk [apos]

/-- `starts_with_chars p l` is true when `p` is an initial segment of `l`. -/
def starts_with_chars : List Char → List Char → Bool
  | [], _ => true
  | _ :: _, [] => false
  | p :: ps, c :: cs => p == c && starts_with_chars ps cs

/-- `list_contains_sub n h` is true when `n` occurs as a contiguous
subsequence of `h` (Python's `n in h` on strings). -/
def list_contains_sub (needle : List Char) : List Char → Bool
  | [] => needle.isEmpty
  | c :: cs => starts_with_chars needle (c :: cs) || list_contains_sub needle cs

/-- Python's substring test `needle in hay`. -/
def substr_contains (hay needle : String) : Bool :=
  list_contains_sub needle.toList hay.toList

/-- Python `str.lower()` (character-wise; every string this engine lowers is
ASCII). -/
def to_lower_string (s : String) : String :=
  String.mk (s.toList.map Char.toLower)

/-- `re.sub(r'https?://', '', url)`: delete every occurrence of `http://` or
`https://`, scanning left to right (the `s?` is greedy, so at a position where
`https://` matches it is the match taken). -/
def strip_protocols_aux : ℕ → List Char → List Char
  | 0, cs => cs
  | _, [] => []
  | fuel + 1, c :: cs =>
    if starts_with_chars ("https://".toList) (c :: cs) then
      strip_protocols_aux fuel (List.drop 7 cs)
    else if starts_with_chars ("http://".toList) (c :: cs) then
      strip_protocols_aux fuel (List.drop 6 cs)
    else
      c :: strip_protocols_aux fuel cs

/-- `re.sub(r'https?://', '', url)` at full fuel (the fuel only bounds the
recursion; it never runs out, as every step shortens the list by at least
one character). -/
def strip_protocols_list (l : List Char) : List Char :=
  strip_protocols_aux l.length l

/-- `re.sub(r'^www\.', '', domain)`: strip one leading `www.`. -/
def strip_www (l : List Char) : List Char :=
  if starts_with_chars ("www.".toList) l then List.drop 4 l else l

/-- The successful body of `ContentAnalyzer._extract_domain` on a string url:
strip protocol, strip leading `www.`, `split('/')[0]`, lower-case. -/
def clean_domain (url : String) : String :=
  to_lower_string (String.mk ((strip_www (strip_protocols_list url.toList)).takeWhile
    (fun c => c ≠ '/')))

/-! ## DistractionTracker (`python-service/distraction_tracker.py`) -/

/-- A distraction event record as built by `DistractionTracker.log_distraction`
(`{'url': ..., 'title': ..., 'timestamp': time.time(), 'datetime': ...}`). -/
structure Distraction where
  url : String
  title : String
  timestamp : ℤ
  datetime : String
deriving DecidableEq

/-- The mutable state of a `DistractionTracker`: the event list plus the two
configuration constants set in `__init__` (the cooldown fields of earlier
revisions are removed in the source and therefore absent here). -/
structure TrackerState where
  distractions : List Distraction
  detection_window : ℤ
  intervention_threshold : ℕ
deriving DecidableEq

/-- `DistractionTracker.__init__`: no events, 600-second window, threshold 2. -/
def tracker_init : TrackerState :=
  { distractions := [], detection_window := 600, intervention_threshold := 2 }

/-- The shape of a `GooseClient.run_task` result dictionary
(`{success: bool, output: string, error?: string}` per the external
interface; `output`/`error` may be absent). -/
structure GooseResult where
  success : Bool
  output : Option String
  error : Option String

/-- The external Goose agent: takes the instruction text, returns a result or
raises. Opaque collaborator, passed as a parameter. -/
def GooseFn : Type := String → Except String GooseResult

/-- `DistractionTracker._get_recent_distractions`: eagerly reassigns
`self.distractions` to the events with `timestamp > now - detection_window`
and returns that same list. -/
def get_recent_distractions (s : TrackerState) (now : ℤ) :
    List Distraction × TrackerState :=
  let cutoff := now - s.detection_window
  let recent := s.distractions.filter (fun d => decide (cutoff < d.timestamp))
  (recent, { s with distractions := recent })

/-- `DistractionTracker.should_intervene`: prune, then compare the recent
count against the threshold. The cooldown check of earlier revisions is
commented out in the source and so does not appear. -/
def should_intervene (s : TrackerState) (now : ℤ) : Bool × TrackerState :=
  let r := get_recent_distractions s now
  (decide (s.intervention_threshold ≤ r.1.length), r.2)

/-- The `"".join(...)` context block built in
`DistractionTracker.start_intervention` from the recent events. -/
def intervention_context (recent : List Distraction) : String :=
  String.join (recent.map (fun d =>
    "- " ++ d.title ++ " (" ++ d.url ++ ") at " ++ d.datetime))

/-- The f-string instruction text of `DistractionTracker.start_intervention`. -/
def intervention_instructions (context_text : String) : String :=
  "\n        Hey there! I noticed you" ++ apos_s ++ "ve been jumping around a bit recently. You" ++ apos_s ++ "ve visited a few sites that might be pulling you away from your tasks, like:\n        " ++ context_text ++ "\n        \n        It seems like something might be on your mind today, or perhaps you" ++ apos_s ++ "re feeling a little scattered. What" ++ apos_s ++ "s going on? No judgment at all, just wanted to check in and see how I can help you get back on track.\n        \n        If you" ++ apos_s ++ "d like, I can suggest a quick refocus technique or a helpful productivity tip. Just let me know what you need or if you want to chat for a bit.\n        "

/-- `DistractionTracker.start_intervention`: formats the context, calls the
Goose client inside `try/except`, and always returns a string (success
output, failure message, or exception message). -/
def start_intervention (g : GooseFn) (recent : List Distraction) : String :=
  let context_text := intervention_context recent
  let instructions := intervention_instructions context_text
  match g instructions with
  | Except.error e => "Intervention error: " ++ e
  | Except.ok result =>
    if result.success then result.output.getD "Intervention completed"
    else "Intervention failed: " ++ result.error.getD "Unknown error"

/-- `DistractionTracker.log_distraction`: appends the event unconditionally,
then checks `should_intervene`; when it triggers, re-reads the recent list
and returns the intervention response. When it does not trigger, the final
`return response` refers to the local `response` that was never assigned,
which raises `UnboundLocalError` (the mutated event list survives, as object
mutation is unaffected by the raised exception). -/
def log_distraction (g : GooseFn) (s : TrackerState) (url title : String)
    (now : ℤ) (now_iso : String) : Except String String × TrackerState :=
  let d : Distraction := { url := url, title := title, timestamp := now, datetime := now_iso }
  let s1 := { s with distractions := s.distractions ++ [d] }
  let r := should_intervene s1 now
  if r.1 then
    let rec2 := get_recent_distractions r.2 now
    (Except.ok (start_intervention g rec2.1), rec2.2)
  else
    (Except.error "UnboundLocalError: local variable response referenced before assignment", r.2)

/-- The dictionary returned by `DistractionTracker.get_status` (the cooldown
fields are hard-coded in the source since cooldown removal). -/
structure TrackerStatus where
  total_distractions : ℕ
  recent_distractions : ℕ
  last_intervention : Option ℤ
  in_cooldown : Bool
  cooldown_remaining : ℤ
deriving DecidableEq

/-- `DistractionTracker.get_status`: prunes via `_get_recent_distractions`,
then reports `len(self.distractions)` (post-pruning) and `len(recent)`. -/
def get_status (s : TrackerState) (now : ℤ) : TrackerStatus × TrackerState :=
  let r := get_recent_distractions s now
  ({ total_distractions := r.2.distractions.length,
     recent_distractions := r.1.length,
     last_intervention := none,
     in_cooldown := false,
     cooldown_remaining := 0 }, r.2)

/-- Count of stored events carrying a given URL. -/
def count_url (l : List Distraction) (u : String) : ℕ :=
  (l.filter (fun d => decide (d.url = u))).length

/-! ## SessionManager (`python-service/session_manager.py`) -/

/-- `SessionState` enum of the source. -/
inductive SessionPhase where
  | IDLE
  | FOCUS
  | BREAK
deriving DecidableEq

/-- The `daily_stats` dictionary of `SessionManager`. -/
structure DailyStats where
  focus_minutes : ℚ
  break_minutes : ℚ
  sessions_completed : ℕ
  distractions_blocked : ℕ
deriving DecidableEq

/-- The state of a `SessionManager`: phase, nullable start instant, planned
duration, and daily statistics. Timer handles and callback lists carry no
state relevant to the invariants modelled here (callback failures are caught
in `_trigger_callbacks` and cannot abort a transition). -/
structure SessionMState where
  current_state : SessionPhase
  session_start_time : Option ℚ
  session_duration : ℚ
  daily_stats : DailyStats
deriving DecidableEq

/-- `SessionManager.__init__`: IDLE, no start time, duration 0; `stats0` is
whatever `_load_stats` restored (or the zeroed structure). -/
def session_init (stats0 : DailyStats) : SessionMState :=
  { current_state := .IDLE, session_start_time := none,
    session_duration := 0, daily_stats := stats0 }

/-- `SessionManager._complete_focus_session`: add elapsed focus minutes and a
completed session when a start time exists, then go IDLE and clear the start
time unconditionally. -/
def complete_focus_session (s : SessionMState) (now : ℚ) : SessionMState :=
  let s1 :=
    match s.session_start_time with
    | some t =>
      { s with daily_stats :=
        { s.daily_stats with
          focus_minutes := s.daily_stats.focus_minutes + (now - t) / 60,
          sessions_completed := s.daily_stats.sessions_completed + 1 } }
    | none => s
  { s1 with current_state := .IDLE, session_start_time := none }

/-- `SessionManager.start_focus_session`: refused unless IDLE; otherwise set
FOCUS, record the start time and duration (the timer is scheduled but holds
no modelled state). -/
def start_focus_session (s : SessionMState) (now dur : ℚ) : Bool × SessionMState :=
  if s.current_state ≠ .IDLE then (false, s)
  else (true, { s with current_state := .FOCUS, session_start_time := some now,
                       session_duration := dur })

/-- `SessionManager.start_break_session`: refused when already on BREAK; when
coming from FOCUS, first finalize the focus session; then set BREAK with a
fresh start time and duration. -/
def start_break_session (s : SessionMState) (now dur : ℚ) : Bool × SessionMState :=
  if s.current_state = .BREAK then (false, s)
  else
    let s1 := if s.current_state = .FOCUS then complete_focus_session s now else s
    (true, { s1 with current_state := .BREAK, session_start_time := some now,
                     session_duration := dur })

/-- `SessionManager._on_focus_session_end` (focus-timer expiry): finalize the
focus session, then auto-start a 5-minute break. -/
def on_focus_session_end (s : SessionMState) (now : ℚ) : SessionMState :=
  (start_break_session (complete_focus_session s now) now 5).2

/-- `SessionManager._on_break_session_end` (break-timer expiry): add elapsed
break minutes when a start time exists, then go IDLE and clear the start
time (stats are also persisted, which holds no modelled state). -/
def on_break_session_end (s : SessionMState) (now : ℚ) : SessionMState :=
  let s1 :=
    match s.session_start_time with
    | some t =>
      { s with daily_stats :=
        { s.daily_stats with
          break_minutes := s.daily_stats.break_minutes + (now - t) / 60 } }
    | none => s
  { s1 with current_state := .IDLE, session_start_time := none }

/-- `SessionManager.end_current_session`: no-op from IDLE; otherwise cancel
the timer and run the same finalization as natural expiry of the active
phase. -/
def end_current_session (s : SessionMState) (now : ℚ) : Bool × SessionMState :=
  if s.current_state = .IDLE then (false, s)
  else
    let s1 :=
      if s.current_state = .FOCUS then on_focus_session_end s now
      else if s.current_state = .BREAK then on_break_session_end s now
      else s
    (true, s1)

/-- One transition of the session state machine. Timer expiries are allowed
from any state, as `threading.Timer` callbacks may fire regardless of the
phase reached since scheduling (the source never cancels the focus timer in
`start_break_session`). -/
inductive SessionStep : SessionMState → SessionMState → Prop where
  | start_focus (s : SessionMState) (now dur : ℚ) :
      SessionStep s (start_focus_session s now dur).2
  | start_break (s : SessionMState) (now dur : ℚ) :
      SessionStep s (start_break_session s now dur).2
  | end_session (s : SessionMState) (now : ℚ) :
      SessionStep s (end_current_session s now).2
  | focus_expiry (s : SessionMState) (now : ℚ) :
      SessionStep s (on_focus_session_end s now)
  | break_expiry (s : SessionMState) (now : ℚ) :
      SessionStep s (on_break_session_end s now)

/-- States reachable from a freshly constructed `SessionManager`. -/
inductive SessionReachable : SessionMState → Prop where
  | init (stats0 : DailyStats) : SessionReachable (session_init stats0)
  | step {s s' : SessionMState} :
      SessionReachable s → SessionStep s s' → SessionReachable s'

/-! ## ContentAnalyzer (`python-service/content_analyzer.py`)

Content snapshots arrive as JSON-shaped Python dictionaries; the analyzer is
wrapped in a `try/except` precisely because the snapshot may be malformed.
`Val` is the dynamic value type, and the `py_*` helpers give the Python
operations used by the analyzer their dynamic semantics, raising (as
`Except.error`) exactly where Python would raise. -/

/-- A dynamic (JSON-shaped) Python value. -/
inductive Val where
  | vStr (s : String)
  | vInt (n : ℤ)
  | vList (l : List Val)
  | vDict (kvs : List (String × Val))
  | vNone

/-- `dict.get(k, default)` on a dictionary's key-value list. -/
def dict_get_default (kvs : List (String × Val)) (k : String) (default : Val) : Val :=
  match kvs.lookup k with
  | some v => v
  | none => default

/-- `v.get(k, default)`: attribute error unless `v` is a dict. -/
def py_get (v : Val) (k : String) (default : Val) : Except String Val :=
  match v with
  | .vDict kvs => Except.ok (dict_get_default kvs k default)
  | _ => Except.error "AttributeError: object has no attribute get"

/-- `v.lower()`: attribute error unless `v` is a string. -/
def py_lower_val : Val → Except String String
  | .vStr s => Except.ok (to_lower_string s)
  | _ => Except.error "AttributeError: object has no attribute lower"

/-- `v * 2` (sequence repetition / integer doubling). -/
def py_mul2 : Val → Except String Val
  | .vStr s => Except.ok (.vStr (s ++ s))
  | .vInt n => Except.ok (.vInt (2 * n))
  | .vList l => Except.ok (.vList (l ++ l))
  | _ => Except.error "TypeError: unsupported operand type for *"

/-- `v[:50]` as evaluated by the logging line of `analyze_content`. -/
def py_slice50 : Val → Except String Val
  | .vStr s => Except.ok (.vStr (String.mk (s.toList.take 50)))
  | .vList l => Except.ok (.vList (l.take 50))
  | .vDict _ => Except.error "TypeError: unhashable type: slice"
  | _ => Except.error "TypeError: object is not subscriptable"

/-- `list.extend(v)` element production: lists give their elements, strings
their characters, dicts their keys; other values are not iterable. -/
def py_iter_elems : Val → Except String (List Val)
  | .vList l => Except.ok l
  | .vStr s => Except.ok (s.toList.map (fun c => .vStr (String.mk [c])))
  | .vDict kvs => Except.ok (kvs.map (fun kv => .vStr kv.1))
  | _ => Except.error "TypeError: object is not iterable"

/-- Python truth-value testing (`not v`). -/
def py_falsy : Val → Bool
  | .vStr s => s == ""
  | .vInt n => n == 0
  | .vList l => l.isEmpty
  | .vDict kvs => kvs.isEmpty
  | .vNone => true

/-- `' '.join` precondition: each item must be a string (left to right). -/
def vals_as_strings : List Val → Except String (List String)
  | [] => Except.ok []
  | .vStr s :: rest =>
    match vals_as_strings rest with
    | Except.ok l => Except.ok (s :: l)
    | Except.error e => Except.error e
  | _ :: _ => Except.error "TypeError: sequence item: expected str instance"

/-- Python `repr` of a string as rendered inside an f-string holding a list
(single quotes; double quotes when the string contains an apostrophe and no
double quote; otherwise escaped apostrophes). Backslash escaping of other
characters never arises for the keyword tables of the source. -/
def py_str_repr_string (s : String) : String :=
  if s.toList.contains apos && !(s.toList.contains '"') then "\"" ++ s ++ "\""
  else apos_s ++ String.mk (s.toList.flatMap (fun c => if c = apos then ['\\', apos] else [c])) ++ apos_s

/-- Python `str` of a list of strings, as interpolated by the f-strings that
build the `reason` field. -/
def py_repr_str_list (l : List String) : String :=
  "[" ++ String.intercalate ", " (l.map py_str_repr_string) ++ "]"

/-- Python's `\w` word character (ASCII range, which is all the corpora
contain after lower-casing). -/
def is_word_char (c : Char) : Bool := c.isAlphanum || c == '_'

/-- Word-character test lifted to an optional neighbouring character (string
edges count as non-word). -/
def opt_is_word : Option Char → Bool
  | some c => is_word_char c
  | none => false

/-- The `\b` assertion between two (possibly absent) neighbours. -/
def word_boundary (a b : Option Char) : Bool := opt_is_word a != opt_is_word b

/-- `len(re.findall(r'\b' + re.escape(kw) + r'\b', text))` scan for a
non-empty keyword `k0 :: ks`: at each position try the whole-word match;
on success consume the keyword (matches do not overlap), otherwise advance
one character. `prev` is the character just before the current position. -/
def count_wb_aux (k0 : Char) (ks : List Char) : ℕ → Option Char → List Char → ℕ
  | 0, _, _ => 0
  | _, _, [] => 0
  | fuel + 1, prev, c :: cs =>
    if starts_with_chars (k0 :: ks) (c :: cs)
        && word_boundary prev (some k0)
        && word_boundary (some (List.getLastD ks k0)) (List.drop ks.length cs).head? then
      1 + count_wb_aux k0 ks fuel (some (List.getLastD ks k0)) (List.drop ks.length cs)
    else
      count_wb_aux k0 ks fuel (some c) cs

/-- Whole-word occurrence count of a keyword in a text (the fuel only bounds
the scan; it never runs out, as every step shortens the remaining text). -/
def count_word (kw : String) (text : String) : ℕ :=
  match kw.toList with
  | [] => 0
  | k0 :: ks => count_wb_aux k0 ks text.toList.length none text.toList

/-- `self.work_keywords` of `ContentAnalyzer.__init__`. -/
def work_keywords : List (String × List String) := [
  ("programming", ["tutorial", "documentation", "guide", "how to", "learn", "programming",
    "coding", "development", "api", "framework", "library", "course",
    "education", "training", "technical", "software", "code", "debug",
    "stackoverflow", "github", "python", "javascript", "react", "node",
    "css", "html", "database", "sql", "algorithm", "data structure"]),
  ("productivity", ["project", "task", "planning", "meeting", "work", "business",
    "professional", "career", "skill", "improvement", "efficiency"]),
  ("research", ["research", "study", "analysis", "report", "article", "academic",
    "scientific", "paper", "journal", "reference", "documentation"])]

/-- `self.distraction_keywords` of `ContentAnalyzer.__init__`. -/
def distraction_keywords : List (String × List String) := [
  ("entertainment", ["funny", "humor", "comedy", "entertainment", "viral", "memes",
    "fails", "compilation", "reaction", "prank", "challenge",
    "celebrity", "gossip", "drama", "scandal", "trending"]),
  ("news", ["breaking", "urgent", "scandal", "controversy", "politics", "election",
    "sports scores", "celebrity news", "fashion", "lifestyle"]),
  ("social", ["social media", "instagram", "tiktok", "snapchat", "dating",
    "relationship", "personal", "friends", "party"]),
  ("gaming", ["gaming", "gameplay", "streamer", "twitch", "esports", "game review",
    "let" ++ apos_s ++ "s play", "walkthrough", "easter egg"])]

/-- `self.work_domains` of `ContentAnalyzer.__init__`. -/
def work_domains : List String :=
  ["stackoverflow.com", "github.com", "developer.mozilla.org", "docs.python.org",
   "reactjs.org", "w3schools.com", "codecademy.com", "freecodecamp.org",
   "coursera.org", "udemy.com", "edx.org", "khan academy.org", "pluralsight.com",
   "linkedin.com/learning", "microsoft.com/docs", "aws.amazon.com/documentation"]

/-- `self.distraction_domains` of `ContentAnalyzer.__init__`. -/
def distraction_domains : List String :=
  ["9gag.com", "buzzfeed.com", "tmz.com", "reddit.com/r/funny",
   "reddit.com/r/memes", "tiktok.com", "instagram.com", "facebook.com/watch"]

/-- The user-learning portion of `self.user_patterns` consulted by
`_check_domain_patterns` (loaded from `user_patterns.json`, empty when the
file is missing). -/
structure UserPatterns where
  allowed_sites : List String
  blocked_sites : List String

/-- Fresh user patterns (no persisted file). -/
def user_patterns_init : UserPatterns := { allowed_sites := [], blocked_sites := [] }

/-- The classification decision values. -/
inductive Decision where
  | WORK
  | DISTRACTION
  | NEUTRAL
deriving DecidableEq

/-- Result of `_analyze_keywords` (matched lists carry the
`"keyword(count)"` strings in iteration order). -/
structure KeywordScore where
  work_score : ℕ
  distraction_score : ℕ
  matched_work : List String
  matched_distraction : List String
deriving DecidableEq

/-- Result of `_analyze_youtube_specific`. -/
structure YtScore where
  youtube_score : ℤ
  youtube_reason : String
deriving DecidableEq

/-- Result of `_analyze_context`. -/
structure ContextScore where
  context_score : ℕ
  context_reasons : List String
deriving DecidableEq

/-- The `scores` sub-dictionary of a final decision. -/
structure FullScores where
  work : ℤ
  distraction : ℤ
  keyword_details : KeywordScore
  youtube_details : YtScore
  context_details : ContextScore
deriving DecidableEq

/-- A classification verdict (`decision`, `confidence`, `reason`, and the
`scores` breakdown, present only on verdicts from `_make_final_decision`). -/
structure Verdict where
  decision : Decision
  confidence : ℚ
  reason : String
  scores : Option FullScores
deriving DecidableEq

/-- `ContentAnalyzer._extract_domain`: on a string, the regex pipeline never
raises, giving the cleaned domain; on any other value the `except` clause
evaluates `url.lower()`, which raises an `AttributeError` that propagates. -/
def extract_domain : Val → Except String String
  | .vStr s => Except.ok (clean_domain s)
  | _ => Except.error "AttributeError: object has no attribute lower"

/-- `ContentAnalyzer._check_domain_patterns`: trusted-work or user-allowed
domains short-circuit to WORK 0.95; otherwise known-distraction or
user-blocked domains short-circuit to DISTRACTION 0.95. -/
def check_domain_patterns (up : UserPatterns) (domain : String) : Option Verdict :=
  if work_domains.contains domain || up.allowed_sites.contains domain then
    some { decision := .WORK, confidence := 0.95,
           reason := "Trusted work domain: " ++ domain, scores := none }
  else if distraction_domains.contains domain || up.blocked_sites.contains domain then
    some { decision := .DISTRACTION, confidence := 0.95,
           reason := "Known distraction domain: " ++ domain, scores := none }
  else
    none

/-- `ContentAnalyzer._combine_text_content`: parts are `title * 2` (string
repetition, no separator between the copies), description, the headings
elements, page text and keywords; joined with single spaces and
lower-cased. -/
def combine_text_content (content_data : Val) : Except String String :=
  match py_get content_data "title" (.vStr "") with
  | Except.error e => Except.error e
  | Except.ok title =>
    match py_mul2 title with
    | Except.error e => Except.error e
    | Except.ok title2 =>
      match py_get content_data "description" (.vStr "") with
      | Except.error e => Except.error e
      | Except.ok description =>
        match py_get content_data "headings" (.vList []) with
        | Except.error e => Except.error e
        | Except.ok headings =>
          match py_iter_elems headings with
          | Except.error e => Except.error e
          | Except.ok heading_parts =>
            match py_get content_data "pageText" (.vStr "") with
            | Except.error e => Except.error e
            | Except.ok page_text =>
              match py_get content_data "keywords" (.vStr "") with
              | Except.error e => Except.error e
              | Except.ok keywords =>
                match vals_as_strings ([title2, description] ++ heading_parts
                    ++ [page_text, keywords]) with
                | Except.error e => Except.error e
                | Except.ok parts =>
                  Except.ok (to_lower_string (String.intercalate " " parts))

/-- The per-table loop of `_analyze_keywords`: fold categories in order,
keywords in list order, accumulating the score and the matched
`"keyword(count)"` strings. -/
def keyword_tally (table : List (String × List String)) (text : String) :
    ℕ × List String :=
  table.foldl (fun acc cat =>
    cat.2.foldl (fun acc2 kw =>
      let count := count_word (to_lower_string kw) text
      if 0 < count then
        (acc2.1 + count, acc2.2 ++ [kw ++ "(" ++ toString count ++ ")"])
      else acc2) acc) (0, [])

/-- `ContentAnalyzer._analyze_keywords`. -/
def analyze_keywords (text : String) : KeywordScore :=
  let w := keyword_tally work_keywords text
  let d := keyword_tally distraction_keywords text
  { work_score := w.1, distraction_score := d.1,
    matched_work := w.2, matched_distraction := d.2 }

/-- The `educational_channels` list of `_analyze_youtube_specific`. -/
def educational_channels : List String :=
  ["freecodecamp", "traversy media", "net ninja", "academind",
   "programming with mosh", "tech with tim", "corey schafer",
   "sentdex", "derek banas", "new boston", "edureka"]

/-- The `educational_terms` list of `_analyze_youtube_specific`. -/
def educational_terms : List String :=
  ["tutorial", "course", "learn", "how to", "explained", "guide"]

/-- The `entertainment_terms` list of `_analyze_youtube_specific`. -/
def entertainment_terms : List String :=
  ["funny", "fail", "reaction", "meme", "prank", "viral"]

/-- `ContentAnalyzer._analyze_youtube_specific`. -/
def analyze_youtube_specific (content_data : Val) : Except String YtScore :=
  match py_get content_data "youtubeData" (.vDict []) with
  | Except.error e => Except.error e
  | Except.ok yd =>
    if py_falsy yd then
      Except.ok { youtube_score := 0, youtube_reason := "Not YouTube" }
    else
      match py_get yd "channelName" (.vStr "") with
      | Except.error e => Except.error e
      | Except.ok chv =>
        match py_lower_val chv with
        | Except.error e => Except.error e
        | Except.ok channel =>
          match py_get yd "videoTitle" (.vStr "") with
          | Except.error e => Except.error e
          | Except.ok tv =>
            match py_lower_val tv with
            | Except.error e => Except.error e
            | Except.ok title =>
              if educational_channels.any (fun ec => substr_contains channel ec) then
                Except.ok { youtube_score := 3,
                            youtube_reason := "Educational channel: " ++ channel }
              else if educational_terms.any (fun t => substr_contains title t) then
                Except.ok { youtube_score := 2,
                            youtube_reason := "Educational content detected" }
              else if entertainment_terms.any (fun t => substr_contains title t) then
                Except.ok { youtube_score := -3,
                            youtube_reason := "Entertainment content detected" }
              else
                Except.ok { youtube_score := 0,
                            youtube_reason := "Neutral YouTube content" }

/-- `ContentAnalyzer._analyze_context` (the current wall-clock hour is a
parameter; the `'/watch?'` branch of the source is an explicit `pass`). -/
def analyze_context (hour : ℕ) (content_data : Val) : Except String ContextScore :=
  let base : ℕ × List String :=
    if 9 ≤ hour ∧ hour ≤ 17 then (1, ["During work hours"]) else (0, [])
  match py_get content_data "url" (.vStr "") with
  | Except.error e => Except.error e
  | Except.ok urlv =>
    match py_lower_val urlv with
    | Except.error e => Except.error e
    | Except.ok url =>
      let r :=
        if substr_contains url "/docs/" || substr_contains url "/documentation/"
            || substr_contains url "/api/" then
          (base.1 + 2, base.2 ++ ["Documentation URL pattern"])
        else base
      Except.ok { context_score := r.1, context_reasons := r.2 }

/-- The `total_work` local of `_make_final_decision`: work keywords plus the
positive part of the platform score plus the context score. -/
def total_work_score (keyword_score : KeywordScore) (youtube_score : YtScore)
    (context_score : ContextScore) : ℤ :=
  (keyword_score.work_score : ℤ) + max 0 youtube_score.youtube_score
    + (context_score.context_score : ℤ)

/-- The `total_distraction` local of `_make_final_decision`: distraction
keywords plus the negated negative part of the platform score. -/
def total_distraction_score (keyword_score : KeywordScore) (youtube_score : YtScore) : ℤ :=
  (keyword_score.distraction_score : ℤ) + max 0 (-youtube_score.youtube_score)

/-- `ContentAnalyzer._make_final_decision` (`domain` is passed but unused in
the source as well). -/
def make_final_decision (keyword_score : KeywordScore) (youtube_score : YtScore)
    (context_score : ContextScore) (domain : String) : Verdict :=
  let total_work : ℤ := total_work_score keyword_score youtube_score context_score
  let total_distraction : ℤ := total_distraction_score keyword_score youtube_score
  let scores : Option FullScores := some
    { work := total_work, distraction := total_distraction,
      keyword_details := keyword_score, youtube_details := youtube_score,
      context_details := context_score }
  if 2 ≤ total_work ∧ total_distraction < total_work then
    { decision := .WORK,
      confidence := min (0.9 : ℚ) (0.6 + ((total_work - total_distraction : ℤ) : ℚ) * 0.1),
      reason := "Work indicators: " ++ py_repr_str_list (keyword_score.matched_work.take 3),
      scores := scores }
  else if 2 ≤ total_distraction ∧ total_work < total_distraction then
    { decision := .DISTRACTION,
      confidence := min (0.9 : ℚ) (0.6 + ((total_distraction - total_work : ℤ) : ℚ) * 0.1),
      reason := "Distraction indicators: "
        ++ py_repr_str_list (keyword_score.matched_distraction.take 3),
      scores := scores }
  else
    { decision := .NEUTRAL, confidence := 0.3,
      reason := "Ambiguous content - needs user decision", scores := scores }

/-- The `try` body of `ContentAnalyzer.analyze_content`: the logging line
evaluates `content_data.get('title', 'No title')[:50]`, then the domain is
extracted and checked, and only when no domain rule fires does the text
pipeline run. -/
def analyze_content_body (up : UserPatterns) (hour : ℕ) (content_data : Val) :
    Except String Verdict :=
  match py_get content_data "title" (.vStr "No title") with
  | Except.error e => Except.error e
  | Except.ok titlev =>
    match py_slice50 titlev with
    | Except.error e => Except.error e
    | Except.ok _ =>
      match py_get content_data "url" (.vStr "") with
      | Except.error e => Except.error e
      | Except.ok urlv =>
        match extract_domain urlv with
        | Except.error e => Except.error e
        | Except.ok domain =>
          match check_domain_patterns up domain with
          | some v => Except.ok v
          | none =>
            match combine_text_content content_data with
            | Except.error e => Except.error e
            | Except.ok all_text =>
              let keyword_score := analyze_keywords all_text
              match analyze_youtube_specific content_data with
              | Except.error e => Except.error e
              | Except.ok youtube_score =>
                match analyze_context hour content_data with
                | Except.error e => Except.error e
                | Except.ok context_score =>
                  Except.ok (make_final_decision keyword_score youtube_score
                    context_score domain)

/-- `ContentAnalyzer.analyze_content`: the `try/except` wrapper — any raised
exception becomes a NEUTRAL verdict with confidence 0.0 carrying the error
text; the function is total and never propagates an error. -/
def analyze_content (up : UserPatterns) (hour : ℕ) (content_data : Val) : Verdict :=
  match analyze_content_body up hour content_data with
  | Except.ok v => v
  | Except.error e =>
    { decision := .NEUTRAL, confidence := 0.0,
      reason := "Analysis error: " ++ e, scores := none }

/-! ## The `/analyze-distraction` endpoint (`python-service/simple_main.py`) -/

/-- Modelled from the spec: the `analysis_enabled` attribute and the
`enable_analysis` / `disable_analysis` methods that `simple_main.py` reads
(`tracker.analysis_enabled`) and registers as gesture callbacks
(`tracker.enable_analysis`, `tracker.disable_analysis`) are not defined
anywhere in the repository source; per the spec they form a boolean bypass
switch, toggleable by external gesture signals. They are modelled here as a
plain boolean carried next to the (source-defined) tracker state, giving
the global application state used by `simple_main.py`. -/
structure AppState where
  tracker : TrackerState
  analysis_enabled : Bool

/-- Modelled from the spec: the gesture callback that turns analysis on
(`thumbs_up`). -/
def enable_analysis (st : AppState) : AppState := { st with analysis_enabled := true }

/-- Modelled from the spec: the gesture callback that turns analysis off
(`peace`). -/
def disable_analysis (st : AppState) : AppState := { st with analysis_enabled := false }

/-- The response of the `/analyze-distraction` handler, restricted to the
fields the verified properties are about (`status`, `is_distraction`,
`analysis`, `action`; error responses carry the HTTP code and message). -/
inductive HttpResponse where
  | okJson (status : String) (is_distraction : Bool) (analysis : String)
      (action : Option String)
  | errJson (code : ℕ) (message : String)
deriving DecidableEq

/-- The YES/NO instruction text sent to the Goose client by the handler. -/
def yes_no_instructions (url : String) : String :=
  "REPLY with only YES or NO. Is this URL " ++ url
    ++ " a distraction or not for user who" ++ apos_s ++ "s studying/working. "

/-- The `analyze_distraction` request handler of `simple_main.py`: reject an
empty url with 400; always call `tracker.log_distraction` first (inside the
handler's `try`, so an exception from it yields a 500 response with the
exception text, the tracker mutation surviving); only then consult
`analysis_enabled` — when disabled, skip Goose and answer
`analysis_disabled` with `is_distraction = false`; when enabled, ask Goose
the YES/NO question, flag a distraction when the literal `"YES"` occurs in
the output, and attach the `close_tab` action (the debugging `print` at line
126 calls `result.get("output")` without a default, so a result without an
`output` key raises and yields a 500). -/
def analyze_distraction (g : GooseFn) (st : AppState) (url title : String)
    (now : ℤ) (now_iso : String) : HttpResponse × AppState :=
  if url = "" then (.errJson 400 "URL is required", st)
  else
    let lr := log_distraction g st.tracker url title now now_iso
    match lr.1 with
    | Except.error e => (.errJson 500 e, { st with tracker := lr.2 })
    | Except.ok _ =>
      let st1 : AppState := { st with tracker := lr.2 }
      if st.analysis_enabled = false then
        (.okJson "analysis_disabled" false "DISABLED" none, st1)
      else
        match g (yes_no_instructions url) with
        | Except.error e => (.errJson 500 e, st1)
        | Except.ok result =>
          let is_distraction := substr_contains (result.output.getD "") "YES"
          match result.output with
          | none => (.errJson 500 "TypeError: argument of type NoneType is not iterable", st1)
          | some _ =>
            (.okJson "analyzed" is_distraction
              (if is_distraction then "YES" else "NO")
              (if is_distraction then some "close_tab" else none), st1)

/-- A concrete Goose collaborator that always succeeds with output "ok",
used to instantiate theorems at concrete inputs. -/
def goose_ok : GooseFn := fun _ =>
  Except.ok { success := true, output := some "ok", error := none }

/-! ## Helper lemmas -/

/-- Filtering is its own post-condition: every survivor satisfies the
predicate. -/
theorem filter_all_self {α : Type} (p : α → Bool) (l : List α) :
    (l.filter p).all p = true := by
  simp only [List.all_eq_true]
  intro a ha
  exact List.of_mem_filter ha

/-- Every list is an initial segment of itself. -/
theorem starts_with_chars_refl (l : List Char) : starts_with_chars l l = true := by
  induction l with
  | nil => rfl
  | cons c cs ih => simp [starts_with_chars, ih]

/-- A needle occurs in any haystack that ends with it. -/
theorem list_contains_sub_append (l n : List Char) :
    list_contains_sub n (l ++ n) = true := by
  induction l with
  | nil =>
    cases n with
    | nil => rfl
    | cons c cs => simp [list_contains_sub, starts_with_chars_refl]
  | cons a t ih => simp [list_contains_sub, ih]

/-- A string contains any of its suffixes as a substring. -/
theorem substr_contains_append (p e : String) :
    substr_contains (p ++ e) e = true := by
  unfold substr_contains
  have hd : (p ++ e).toList = p.toList ++ e.toList := by
    simp [String.toList]
  rw [hd]
  exact list_contains_sub_append p.toList e.toList

/-- Shape of the tracker state after `log_distraction`: the event is appended
and then the list is pruned at the call's cutoff, in the triggering and the
non-triggering branch alike. -/
theorem log_distraction_post (g : GooseFn) (s : TrackerState) (url title : String)
    (now : ℤ) (now_iso : String) :
    ((log_distraction g s url title now now_iso).2).distractions
      = (s.distractions ++ [(⟨url, title, now, now_iso⟩ : Distraction)]).filter
          (fun d => decide (now - s.detection_window < d.timestamp)) := by
  simp only [log_distraction, should_intervene, get_recent_distractions]
  split
  · simp [List.filter_filter]
  · rfl

/-! ## Claim theorems -/

/-- C4: the claim says every `log_distraction` call terminates normally
returning an intervention decision or none; the code instead raises
`UnboundLocalError` on every below-threshold call, because `return response`
references a local assigned only inside the intervention branch. Evaluated
at the failing input: a fresh tracker and a single logged event (recent
count 1 < threshold 2). -/
theorem c4_below_threshold_raises :
    (log_distraction goose_ok tracker_init "https://facebook.com"
        "Facebook - Social Feed" 100 "2025-11-11T20:20:00").1
      = Except.error "UnboundLocalError: local variable response referenced before assignment" := by
  rfl

/-- C10: after `get_status` and after `should_intervene`, every stored event
has a timestamp strictly newer than `now - detection_window` (pruning
mutates stored state), and the status snapshot reports
`total_distractions = recent_distractions`. -/
theorem c10_eager_prune_status (s : TrackerState) (now : ℤ) :
    ((get_status s now).2.distractions.all
        (fun d => decide (now - s.detection_window < d.timestamp)) = true)
    ∧ (get_status s now).1.total_distractions = (get_status s now).1.recent_distractions
    ∧ ((should_intervene s now).2.distractions.all
        (fun d => decide (now - s.detection_window < d.timestamp)) = true) := by
  refine ⟨?_, rfl, ?_⟩
  · simp only [get_status, get_recent_distractions]
    exact filter_all_self _ _
  · simp only [should_intervene, get_recent_distractions]
    exact filter_all_self _ _

/-- C9: the claim says a whole-word keyword occurrence in the title counts
exactly twice as much as the same occurrence in the description. In the code
`title * 2` concatenates the two copies without a separator, so a title that
is exactly the keyword `tutorial` yields the corpus `tutorialtutorial ...`
in which the keyword has no whole-word occurrence at all: the title
contributes 0 where the description contributes 1. -/
theorem c9_title_weight_counterexample :
    (combine_text_content (Val.vDict [("title", Val.vStr "tutorial")])).map
        (fun t => (analyze_keywords t).work_score) = Except.ok 0
    ∧ (combine_text_content (Val.vDict [("description", Val.vStr "tutorial")])).map
        (fun t => (analyze_keywords t).work_score) = Except.ok 1 := by
  exact ⟨rfl, rfl⟩

/-- C1 (counterexample): logging the same URL twice one second apart on a
fresh tracker leaves two stored events for that URL, not one — the claimed
deduplication does not exist in `log_distraction`. -/
theorem c1_dedup_counterexample :
    count_url ((log_distraction goose_ok
        (log_distraction goose_ok tracker_init "https://youtube.com/cats"
          "YouTube - Funny Cat Videos" 0 "i0").2
        "https://youtube.com/cats" "YouTube - Funny Cat Videos" 1 "i1").2).distractions
      "https://youtube.com/cats" = 2 := by
  rfl

/-- C1 (amended): `log_distraction` performs no deduplication — every call
appends its event, so the number of stored events for the logged URL is the
(pruned) previous count plus one, whether or not an event with the same URL
is already inside the detection window; in particular logging the same URL
twice within the window leaves two stored events for it. -/
theorem c1_no_dedup_appends (g : GooseFn) (s : TrackerState) (url title : String)
    (now : ℤ) (now_iso : String) (hw : 0 < s.detection_window) :
    count_url ((log_distraction g s url title now now_iso).2).distractions url
      = count_url (s.distractions.filter
          (fun d => decide (now - s.detection_window < d.timestamp))) url + 1 := by
  rw [log_distraction_post]
  unfold count_url
  rw [List.filter_append, List.filter_append, List.length_append]
  simp [sub_lt_self_iff, hw]

/-- C1 (witness for the amended claim). -/
theorem c1_no_dedup_appends_witness :
    count_url ((log_distraction goose_ok
        (log_distraction goose_ok tracker_init "https://youtube.com/cats"
          "YouTube - Funny Cat Videos" 0 "i0").2
        "https://youtube.com/cats" "YouTube - Funny Cat Videos" 1 "i1").2).distractions
      "https://youtube.com/cats"
      = count_url ((log_distraction goose_ok tracker_init "https://youtube.com/cats"
          "YouTube - Funny Cat Videos" 0 "i0").2.distractions.filter
            (fun d => decide ((1 : ℤ) - (log_distraction goose_ok tracker_init
              "https://youtube.com/cats" "YouTube - Funny Cat Videos" 0 "i0").2.detection_window
                < d.timestamp)))
          "https://youtube.com/cats" + 1 :=
  c1_no_dedup_appends goose_ok
    (log_distraction goose_ok tracker_init "https://youtube.com/cats"
      "YouTube - Funny Cat Videos" 0 "i0").2
    "https://youtube.com/cats" "YouTube - Funny Cat Videos" 1 "i1" (by decide)

/-- C6: intervention is needed exactly when the count of events inside the
detection window reaches `intervention_threshold` — `should_intervene`
consults nothing but that count (no cooldown state exists since its
removal) — and every qualifying `log_distraction` call (threshold reached
after the append) returns an intervention response, consecutive calls
included. -/
theorem c6_threshold_no_cooldown (g : GooseFn) (s : TrackerState) (url title : String)
    (now : ℤ) (now_iso : String) :
    ((should_intervene s now).1 = true ↔
      s.intervention_threshold ≤ (s.distractions.filter
        (fun d => decide (now - s.detection_window < d.timestamp))).length)
    ∧ (s.intervention_threshold ≤
        ((s.distractions ++ [(⟨url, title, now, now_iso⟩ : Distraction)]).filter
          (fun d => decide (now - s.detection_window < d.timestamp))).length →
        ∃ resp, (log_distraction g s url title now now_iso).1 = Except.ok resp) := by
  constructor
  · simp [should_intervene, get_recent_distractions]
  · intro h
    have hb : decide (s.intervention_threshold ≤
        ((s.distractions ++ [(⟨url, title, now, now_iso⟩ : Distraction)]).filter
          (fun d => decide (now - s.detection_window < d.timestamp))).length) = true :=
      decide_eq_true h
    simp only [log_distraction, should_intervene, get_recent_distractions, hb, if_true]
    exact ⟨_, rfl⟩

/-- C6 (witness): with two events inside the window the second call is
qualifying and returns an intervention response. -/
theorem c6_threshold_no_cooldown_witness :
    ∃ resp, (log_distraction goose_ok
      (log_distraction goose_ok tracker_init "https://youtube.com/cats"
        "YouTube - Funny Cat Videos" 0 "i0").2
      "https://reddit.com/r/aww" "Reddit - Cute Animals" 1 "i1").1 = Except.ok resp :=
  (c6_threshold_no_cooldown goose_ok
    (log_distraction goose_ok tracker_init "https://youtube.com/cats"
      "YouTube - Funny Cat Videos" 0 "i0").2
    "https://reddit.com/r/aww" "Reddit - Cute Animals" 1 "i1").2 (by decide)

/-- C7: whenever the classification body raises (malformed snapshots
included), `analyze_content` catches the exception and returns a NEUTRAL
verdict with confidence 0.0 whose reason contains the error text; being a
total function into `Verdict`, it never propagates an exception. -/
theorem c7_error_neutral (up : UserPatterns) (hour : ℕ) (d : Val) (e : String)
    (h : analyze_content_body up hour d = Except.error e) :
    analyze_content up hour d
      = { decision := .NEUTRAL, confidence := 0.0,
          reason := "Analysis error: " ++ e, scores := none }
    ∧ substr_contains (analyze_content up hour d).reason e = true := by
  have h1 : analyze_content up hour d
      = { decision := .NEUTRAL, confidence := 0.0,
          reason := "Analysis error: " ++ e, scores := none } := by
    simp [analyze_content, h]
  refine ⟨h1, ?_⟩
  rw [h1]
  exact substr_contains_append "Analysis error: " e

/-- C7 (witness): a malformed snapshot — the content payload is `None`
instead of a dict — raises at the first attribute access and is converted
to the NEUTRAL error verdict. -/
theorem c7_error_neutral_witness :
    analyze_content user_patterns_init 10 Val.vNone
      = { decision := .NEUTRAL, confidence := 0.0,
          reason := "Analysis error: " ++ "AttributeError: object has no attribute get",
          scores := none }
    ∧ substr_contains (analyze_content user_patterns_init 10 Val.vNone).reason
        "AttributeError: object has no attribute get" = true :=
  c7_error_neutral user_patterns_init 10 Val.vNone
    "AttributeError: object has no attribute get" rfl

/-- C2: the domain short-circuit of `analyze_content` — a snapshot whose
cleaned domain is in the trusted-work or user-allowed set classifies WORK
with confidence 0.95 whatever its text fields hold; a domain in the
known-distraction or user-blocked set (and in neither work set) classifies
DISTRACTION with confidence 0.95; and a domain in both the known-distraction
set and the user-allowed set classifies WORK — the allowed check runs
first. -/
theorem c2_domain_short_circuit (up : UserPatterns) (hour : ℕ)
    (kvs : List (String × Val)) (u t : String)
    (htitle : dict_get_default kvs "title" (Val.vStr "No title") = Val.vStr t)
    (hurl : dict_get_default kvs "url" (Val.vStr "") = Val.vStr u) :
    (clean_domain u ∈ work_domains ∨ clean_domain u ∈ up.allowed_sites →
      analyze_content up hour (Val.vDict kvs)
        = { decision := .WORK, confidence := 0.95,
            reason := "Trusted work domain: " ++ clean_domain u, scores := none })
    ∧ (clean_domain u ∉ work_domains → clean_domain u ∉ up.allowed_sites →
       clean_domain u ∈ distraction_domains ∨ clean_domain u ∈ up.blocked_sites →
      analyze_content up hour (Val.vDict kvs)
        = { decision := .DISTRACTION, confidence := 0.95,
            reason := "Known distraction domain: " ++ clean_domain u, scores := none })
    ∧ (clean_domain u ∈ distraction_domains → clean_domain u ∈ up.allowed_sites →
      (analyze_content up hour (Val.vDict kvs)).decision = Decision.WORK) := by
  refine ⟨?_, ?_, ?_⟩
  · intro hwork
    simp [analyze_content, analyze_content_body, py_get, htitle, hurl, py_slice50,
      extract_domain, check_domain_patterns, hwork]
  · intro hw1 hw2 hdis
    simp [analyze_content, analyze_content_body, py_get, htitle, hurl, py_slice50,
      extract_domain, check_domain_patterns, hw1, hw2, hdis]
  · intro hdis hallow
    simp [analyze_content, analyze_content_body, py_get, htitle, hurl, py_slice50,
      extract_domain, check_domain_patterns, hallow]

/-- C2 (witness): the three branches at concrete snapshots — a Stack
Overflow question page is WORK by trusted domain, a 9GAG page is DISTRACTION
by known-distraction domain, and a TikTok page is WORK when `tiktok.com` is
in the user-allowed set even though it is also a known distraction
domain. -/
theorem c2_domain_short_circuit_witness :
    (analyze_content user_patterns_init 10
        (Val.vDict [("url", Val.vStr "https://stackoverflow.com/questions/1"),
          ("title", Val.vStr "python tutorial debug")])
      = { decision := .WORK, confidence := 0.95,
          reason := "Trusted work domain: "
            ++ clean_domain "https://stackoverflow.com/questions/1", scores := none })
    ∧ (analyze_content user_patterns_init 10
        (Val.vDict [("url", Val.vStr "https://9gag.com/meme/1"),
          ("title", Val.vStr "funny fail compilation")])
      = { decision := .DISTRACTION, confidence := 0.95,
          reason := "Known distraction domain: "
            ++ clean_domain "https://9gag.com/meme/1", scores := none })
    ∧ ((analyze_content { allowed_sites := ["tiktok.com"], blocked_sites := [] } 10
        (Val.vDict [("url", Val.vStr "https://www.tiktok.com/v"),
          ("title", Val.vStr "dance compilation")])).decision = Decision.WORK) :=
  ⟨(c2_domain_short_circuit user_patterns_init 10
      [("url", Val.vStr "https://stackoverflow.com/questions/1"),
        ("title", Val.vStr "python tutorial debug")]
      "https://stackoverflow.com/questions/1" "python tutorial debug" rfl rfl).1
      (by decide),
   (c2_domain_short_circuit user_patterns_init 10
      [("url", Val.vStr "https://9gag.com/meme/1"),
        ("title", Val.vStr "funny fail compilation")]
      "https://9gag.com/meme/1" "funny fail compilation" rfl rfl).2.1
      (by decide) (by decide) (by decide),
   (c2_domain_short_circuit { allowed_sites := ["tiktok.com"], blocked_sites := [] } 10
      [("url", Val.vStr "https://www.tiktok.com/v"),
        ("title", Val.vStr "dance compilation")]
      "https://www.tiktok.com/v" "dance compilation" rfl rfl).2.2
      (by decide) (by decide)⟩

/-- C8 (counterexample): with analysis disabled by the gesture toggle, a
request through the `/analyze-distraction` handler still appends the event
to the tracker — the claimed no-op (no event appended, none returned) does
not hold. -/
theorem c8_noop_counterexample :
    ((disable_analysis { tracker := tracker_init, analysis_enabled := true }).analysis_enabled
      = false)
    ∧ ((analyze_distraction goose_ok
        (disable_analysis { tracker := tracker_init, analysis_enabled := true })
        "https://tiktok.com/v" "TikTok" 0 "i0").2.tracker.distractions.length = 1) := by
  exact ⟨rfl, rfl⟩

/-- C8 (amended): the analysis toggle does not gate event logging — the
handler calls `log_distraction` before consulting `analysis_enabled`, so
with the toggle off and a non-empty URL the event is appended (and the
stored list pruned) exactly as with the toggle on, and the call returns
either the `analysis_disabled` response or a 500 error response, never a
silent no-op. -/
theorem c8_disabled_still_logs (g : GooseFn) (st : AppState) (url title : String)
    (now : ℤ) (now_iso : String) (hurl : url ≠ "") (hdis : st.analysis_enabled = false) :
    ((analyze_distraction g st url title now now_iso).2.tracker.distractions
      = (st.tracker.distractions ++ [(⟨url, title, now, now_iso⟩ : Distraction)]).filter
          (fun d => decide (now - st.tracker.detection_window < d.timestamp)))
    ∧ ((analyze_distraction g st url title now now_iso).1
          = HttpResponse.okJson "analysis_disabled" false "DISABLED" none
        ∨ ∃ e, (analyze_distraction g st url title now now_iso).1
          = HttpResponse.errJson 500 e) := by
  simp only [analyze_distraction, hurl, if_neg, ite_false]
  cases h : (log_distraction g st.tracker url title now now_iso).1 with
  | error e =>
    exact ⟨log_distraction_post g st.tracker url title now now_iso, Or.inr ⟨e, rfl⟩⟩
  | ok v =>
    simp only [hdis]
    exact ⟨log_distraction_post g st.tracker url title now now_iso, Or.inl rfl⟩

/-- C8 (witness for the amended claim): concrete disabled-state request. -/
theorem c8_disabled_still_logs_witness :
    ((analyze_distraction goose_ok { tracker := tracker_init, analysis_enabled := false }
        "https://tiktok.com/v" "TikTok" 0 "i0").2.tracker.distractions
      = (tracker_init.distractions ++ [(⟨"https://tiktok.com/v", "TikTok", 0, "i0"⟩ : Distraction)]).filter
          (fun d => decide ((0 : ℤ) - tracker_init.detection_window < d.timestamp)))
    ∧ ((analyze_distraction goose_ok { tracker := tracker_init, analysis_enabled := false }
          "https://tiktok.com/v" "TikTok" 0 "i0").1
          = HttpResponse.okJson "analysis_disabled" false "DISABLED" none
        ∨ ∃ e, (analyze_distraction goose_ok
            { tracker := tracker_init, analysis_enabled := false }
            "https://tiktok.com/v" "TikTok" 0 "i0").1
          = HttpResponse.errJson 500 e) :=
  c8_disabled_still_logs goose_ok { tracker := tracker_init, analysis_enabled := false }
    "https://tiktok.com/v" "TikTok" 0 "i0" (by decide) rfl

/-- `_on_focus_session_end` always lands in BREAK with the expiry instant as
start time: finalization forces IDLE, after which the auto-started break is
never refused. -/
theorem on_focus_session_end_shape (s : SessionMState) (now : ℚ) :
    (on_focus_session_end s now).current_state = SessionPhase.BREAK
    ∧ (on_focus_session_end s now).session_start_time = some now := by
  unfold on_focus_session_end start_break_session complete_focus_session
  cases s.session_start_time <;> simp

/-- `_on_break_session_end` always lands in IDLE with the start time
cleared. -/
theorem on_break_session_end_shape (s : SessionMState) (now : ℚ) :
    (on_break_session_end s now).current_state = SessionPhase.IDLE
    ∧ (on_break_session_end s now).session_start_time = none := by
  unfold on_break_session_end
  cases s.session_start_time <;> simp

/-- Every session transition preserves the start-time/phase invariant. -/
theorem session_step_inv {s s' : SessionMState}
    (h : s.session_start_time ≠ none ↔ s.current_state ≠ SessionPhase.IDLE)
    (hs : SessionStep s s') :
    s'.session_start_time ≠ none ↔ s'.current_state ≠ SessionPhase.IDLE := by
  cases hs with
  | start_focus now dur =>
    unfold start_focus_session
    split
    · exact h
    · simp
  | start_break now dur =>
    unfold start_break_session
    split
    · exact h
    · simp
  | end_session now =>
    unfold end_current_session
    split
    · exact h
    · split
      · have hb := on_focus_session_end_shape s now
        simp [hb.1, hb.2]
      · split
        · have hb := on_break_session_end_shape s now
          simp [hb.1, hb.2]
        · exact h
  | focus_expiry now =>
    have hb := on_focus_session_end_shape s now
    simp [hb.1, hb.2]
  | break_expiry now =>
    have hb := on_break_session_end_shape s now
    simp [hb.1, hb.2]

/-- C5: in every reachable state of the session state machine — i.e. after
every sequence of `start_focus_session`, `start_break_session`,
`end_current_session`, focus-timer expiry and break-timer expiry
transitions — the start time is non-null exactly when the phase is not
IDLE. -/
theorem c5_session_invariant (s : SessionMState) (h : SessionReachable s) :
    s.session_start_time ≠ none ↔ s.current_state ≠ SessionPhase.IDLE := by
  induction h with
  | init stats0 => simp [session_init]
  | step hr hs ih => exact session_step_inv ih hs

/-- C5 (witness): the invariant instantiated at the state reached by
starting a 25-minute focus session from a fresh manager. -/
theorem c5_session_invariant_witness :
    (start_focus_session (session_init ⟨0, 0, 0, 0⟩) 0 25).2.session_start_time ≠ none
      ↔ (start_focus_session (session_init ⟨0, 0, 0, 0⟩) 0 25).2.current_state
          ≠ SessionPhase.IDLE :=
  c5_session_invariant _
    (SessionReachable.step (SessionReachable.init ⟨0, 0, 0, 0⟩)
      (SessionStep.start_focus (session_init ⟨0, 0, 0, 0⟩) 0 25))

/-- C3: for classifications that reach the scoring stage, the decision is
WORK with confidence `min 0.9 (0.6 + 0.1 * (totalWork - totalDistraction))`
exactly when `totalWork ≥ 2` and `totalWork > totalDistraction`; DISTRACTION
with the mirrored confidence exactly when `totalDistraction ≥ 2` and
`totalDistraction > totalWork`; and NEUTRAL with confidence exactly 0.3 in
all remaining cases. -/
theorem c3_final_decision_rule (kw : KeywordScore) (yt : YtScore) (cx : ContextScore)
    (domain : String) :
    (((make_final_decision kw yt cx domain).decision = Decision.WORK
        ∧ (make_final_decision kw yt cx domain).confidence
          = min (0.9 : ℚ)
              (0.6 + ((total_work_score kw yt cx - total_distraction_score kw yt : ℤ) : ℚ) * 0.1))
      ↔ 2 ≤ total_work_score kw yt cx
        ∧ total_distraction_score kw yt < total_work_score kw yt cx)
    ∧ (((make_final_decision kw yt cx domain).decision = Decision.DISTRACTION
        ∧ (make_final_decision kw yt cx domain).confidence
          = min (0.9 : ℚ)
              (0.6 + ((total_distraction_score kw yt - total_work_score kw yt cx : ℤ) : ℚ) * 0.1))
      ↔ 2 ≤ total_distraction_score kw yt
        ∧ total_work_score kw yt cx < total_distraction_score kw yt)
    ∧ (((make_final_decision kw yt cx domain).decision = Decision.NEUTRAL
        ∧ (make_final_decision kw yt cx domain).confidence = 0.3)
      ↔ ¬(2 ≤ total_work_score kw yt cx
          ∧ total_distraction_score kw yt < total_work_score kw yt cx)
        ∧ ¬(2 ≤ total_distraction_score kw yt
          ∧ total_work_score kw yt cx < total_distraction_score kw yt)) := by
  simp only [make_final_decision]
  by_cases h1 : 2 ≤ total_work_score kw yt cx
      ∧ total_distraction_score kw yt < total_work_score kw yt cx
  · simp only [if_pos h1]
    refine ⟨⟨fun _ => h1, fun _ => by simp⟩, ?_, ?_⟩
    · constructor
      · intro hx; simp at hx
      · intro hx; exact absurd hx.2 (by omega)
    · constructor
      · intro hx; simp at hx
      · intro hx; exact absurd h1 hx.1
  · by_cases h2 : 2 ≤ total_distraction_score kw yt
        ∧ total_work_score kw yt cx < total_distraction_score kw yt
    · simp only [if_neg h1, if_pos h2]
      refine ⟨?_, ⟨fun _ => h2, fun _ => by simp⟩, ?_⟩
      · constructor
        · intro hx; simp at hx
        · intro hx; exact absurd hx h1
      · constructor
        · intro hx; simp at hx
        · intro hx; exact absurd h2 hx.2
    · simp only [if_neg h1, if_neg h2]
      refine ⟨?_, ?_, ⟨fun _ => ⟨h1, h2⟩, fun _ => by simp⟩⟩
      · constructor
        · intro hx; simp at hx
        · intro hx; exact absurd hx h1
      · constructor
        · intro hx; simp at hx
        · intro hx; exact absurd hx h2
